import Mathlib

/-!
Shallow embedding of the Rust RCON restart scheduler (server.js):
the schedule computer (`getNextRestartTime`), the countdown formatter
(`formatTime`), the restart-cascade scheduler (`scheduleRestart` and the
fire-time actions of its timers), and the RCON command channel
(`sendCommand` / inbound-message dispatch).

Time is modelled as integer milliseconds since the Unix epoch.  JS `Date`
arithmetic on millisecond timestamps is exact integer arithmetic (doubles are
exact for these magnitudes, and JS time has no leap seconds), so `Nat`/`Int`
milliseconds is a faithful carrier.
-/

/-- Splitting a character list at every occurrence of `sep`, keeping empty
segments, exactly as JS `String.prototype.split` does on a one-character
separator (`"".split(":") = [""]`, `"a:".split(":") = ["a", ""]`). -/
def splitCharList (sep : Char) : List Char → List (List Char)
  | [] => [[]]
  | c :: cs =>
    match splitCharList sep cs with
    | [] => if c = sep then [[], [c]] else [[c]]
    | r :: rs => if c = sep then [] :: r :: rs else (c :: r) :: rs

/-- JS `s.split(sep)` for a one-character separator. -/
def jsSplit (s : String) (sep : Char) : List String :=
  (splitCharList sep s.data).map String.mk

/-- JS `Number(s)` on the strings relevant here: the empty string is `0`, a
string of decimal digits is its value (leading zeros allowed), and every
other input in this domain yields `NaN`, modelled as `none`.  (JS `Number`
also accepts signs, fractions, exponents and whitespace; those never parse as
an hour/minute field of a valid `"HH:MM"` and are outside every claim.) -/
def jsNumber (s : String) : Option Nat :=
  if s.data.all (fun c => c.isDigit) then
    some (s.data.foldl (fun n c => n * 10 + (c.toNat - 48)) 0)
  else none

/-- Embeds `timeString.split(":").map(Number)` and the destructuring
`const [hours, minutes] = ...` (server.js line 201).  JS destructuring takes
the first two components and ignores the rest, hence the `hs :: ms :: _`
pattern; a `NaN` in either field is modelled as `none`. -/
def parseHHMM (timeString : String) : Option (Nat × Nat) :=
  match jsSplit timeString ':' with
  | hs :: ms :: _ =>
    match jsNumber hs, jsNumber ms with
    | some h, some m => some (h, m)
    | _, _ => none
  | _ => none

/-- Embeds `Date.UTC(now.getUTCFullYear(), now.getUTCMonth(), now.getUTCDate(),
hours, minutes, 0)` (server.js line 203).  For a timestamp `now ≥ 0`, the UTC
midnight of `now`'s calendar day is exactly `now - now % 86400000` (UTC days
are exactly 86 400 000 ms since the epoch, which is itself a UTC midnight),
and `Date.UTC(Y, M, D, h, m, 0)` is that midnight plus `h` hours and `m`
minutes. -/
def todayAtUTC (now h m : Nat) : Nat :=
  now - now % 86400000 + (h * 3600000 + m * 60000)

/-- `getNextRestartTime` (server.js lines 200-208), with the implicit
`new Date()` made an explicit `now` parameter.  `next <= now` advances by
`24 * 60 * 60 * 1000` ms exactly. -/
def getNextRestartTime (timeString : String) (now : Nat) : Option Nat :=
  match parseHHMM timeString with
  | none => none
  | some (h, m) =>
    let next := todayAtUTC now h m
    some (if next ≤ now then next + 24 * 60 * 60 * 1000 else next)

/-- JS `Date.prototype.getUTCHours` on a millisecond timestamp. -/
def getUTCHours (t : Nat) : Nat := t / 3600000 % 24

/-- JS `Date.prototype.getUTCMinutes` on a millisecond timestamp. -/
def getUTCMinutes (t : Nat) : Nat := t / 60000 % 60

/-- JS `Date.prototype.getUTCSeconds` on a millisecond timestamp. -/
def getUTCSeconds (t : Nat) : Nat := t / 1000 % 60

/-- `formatTime` (server.js lines 116-129).  The function first applies
`Math.floor`; on the non-negative integer inputs considered here the floor is
the identity, so the domain is `Nat`. -/
def formatTime (totalSeconds : Nat) : String :=
  if totalSeconds ≥ 60 then
    let minutes := totalSeconds / 60
    let seconds := totalSeconds % 60
    let minuteStr := if minutes = 1 then "minute" else "minutes"
    if seconds > 0 then
      let secondStr := if seconds = 1 then "second" else "seconds"
      Nat.repr minutes ++ " " ++ minuteStr ++ " and " ++ Nat.repr seconds ++ " " ++ secondStr
    else
      Nat.repr minutes ++ " " ++ minuteStr
  else if totalSeconds = 1 then "1 second" else Nat.repr totalSeconds ++ " seconds"

/-- The rendering rule as the specification words it (§4.3 "Time
formatting"), for comparison with the source-derived `formatTime`. -/
def formatTimeSpec (s : Nat) : String :=
  if 60 ≤ s then
    let minutes := s / 60
    let remainder := s % 60
    let minutePart :=
      Nat.repr minutes ++ (if minutes = 1 then " minute" else " minutes")
    if 0 < remainder then
      minutePart ++ " and " ++ Nat.repr remainder ++
        (if remainder = 1 then " second" else " seconds")
    else minutePart
  else if s = 1 then "1 second" else Nat.repr s ++ " seconds"

/-- The fixed cascade lead-time set (server.js line 174). -/
def intervals : List Nat := [1800, 1200, 900, 600, 300, 120, 60, 30, 10, 5]

/-- `sendAnnouncement` (server.js lines 103-107): the command string actually
handed to `sendCommand` for an announcement text. -/
def sayCmd (message : String) : String :=
  "say " ++ ("[Notification] " ++ message)

/-- The log lines `scheduleRestart` emits at arm time (the scheduling log's
timestamp text is irrelevant to the claims; each constructor records which
log statement ran). -/
inductive ArmLog where
  | alreadyPassed
  | scheduling
deriving DecidableEq, Repr

/-- Result of the arm phase of `scheduleRestart`: the deferred announcement
timers (delay in ms paired with the lead time they announce), the terminal
timer's delay when armed, and the logs emitted synchronously. -/
structure Cascade where
  announceTimers : List (Int × Nat)
  terminalDelay : Option Int
  logs : List ArmLog
deriving DecidableEq, Repr

/-- Arm phase of `scheduleRestart` (server.js lines 166-198), with `new
Date()` an explicit `now` and `eventTime` an integer timestamp.  The JS test
`msUntilRestart / 1000 > interval` is exact real division of integers below
2^53, so it is embedded as `interval * 1000 < msUntilRestart`.  Each armed
announcement timer gets delay `msUntilRestart - interval * 1000`; the
terminal timer always gets delay `msUntilRestart`. -/
def scheduleRestart (now eventTime : Int) : Cascade :=
  let msUntilRestart := eventTime - now
  if msUntilRestart ≤ 0 then
    { announceTimers := [], terminalDelay := none, logs := [ArmLog.alreadyPassed] }
  else
    { announceTimers :=
        intervals.filterMap fun (interval : Nat) =>
          if (interval : Int) * 1000 < msUntilRestart then
            some (msUntilRestart - (interval : Int) * 1000, interval)
          else none,
      terminalDelay := some msUntilRestart,
      logs := [ArmLog.scheduling] }

/-- Body of an announcement timer (server.js lines 178-184) at fire time
`fireNow`: re-check the current remaining time; the JS guard
`(eventTime - new Date()) / 1000 >= interval - 1` is exact real division, so
it is embedded as `(interval - 1) * 1000 ≤ eventTime - fireNow`.  Returns the
command sent through the channel, or `none` when the announcement is skipped
(no reschedule). -/
def fireAnnouncement (eventTime fireNow : Int) (interval : Nat) (label : String) :
    Option String :=
  if ((interval : Int) - 1) * 1000 ≤ eventTime - fireNow then
    some (sayCmd (label ++ " in " ++ formatTime interval))
  else none

/-- One effect performed by the terminal timer, in program order. -/
inductive TermEffect where
  | webhook (title description : String)
  | send (cmd : String)
  | delayedSend (delayMs : Nat) (cmd : String)
deriving DecidableEq, Repr

/-- Body of the terminal timer (server.js lines 187-197), as the ordered list
of effects it performs: the Discord embed (title
`serverName + " - " + scheduleName`, fixed description) when a webhook is
configured, the "Restarting now..." announcement, `server.save`, and
`restart 0` after a further 2000 ms timer. -/
def fireTerminal (webhookConfigured : Bool) (serverName label : String) :
    List TermEffect :=
  (if webhookConfigured then
    [TermEffect.webhook (serverName ++ " - " ++ label) "Reconnect in 5 minutes"]
   else []) ++
  [TermEffect.send (sayCmd "Restarting now..."),
   TermEffect.send "server.save",
   TermEffect.delayedSend 2000 "restart 0"]

/-- State of one `RconClient` (server.js lines 45-56): the pending-callback
map, the identifier counter (seeded at 1000 by the constructor), and whether
the transport is open.  Handlers are drawn from an arbitrary type `H`.  The
JS map is an object with unique keys; it is embedded as an association list
looked up by first match and deleted by removing every entry with the key,
which agree on unique-key states. -/
structure RconState (H : Type) where
  callbacks : List (Int × H)
  lastIdentifier : Int
  wsOpen : Bool
deriving DecidableEq, Repr

/-- State right after the constructor runs (`callbacks = {}`,
`lastIdentifier = 1000`); `wsOpen` records how the async connect turned
out. -/
def initialState (H : Type) (wsOpen : Bool) : RconState H :=
  { callbacks := [], lastIdentifier := 1000, wsOpen := wsOpen }

/-- The outbound packet `{ Identifier: identifier, Message: cmd, Name:
"NodeRcon" }` (server.js line 99), as the JSON object's fields. -/
structure Frame where
  identifier : Int
  message : String
  name : String
deriving DecidableEq, Repr

/-- One observable step of `sendCommand`, in program order: the error log of
the closed-transport early return, the registration of a pending callback,
the transmission of a frame, the sent-command info log. -/
inductive SendEvent (H : Type) where
  | errorLog (msg : String)
  | register (id : Int) (handler : H)
  | transmit (frame : Frame)
  | infoLog (msg : String)
deriving DecidableEq, Repr

/-- `this.ws.send(...)` as the underlying transport primitive: the ws library
raises when the socket is not open, modelled as `Except.error`.  `sendCommand`
guards every call so the error branch is unreachable there. -/
def wsSend (wsOpen : Bool) (frame : Frame) : Except String Frame :=
  if wsOpen then Except.ok frame else Except.error "WebSocket is not open"

/-- `sendCommand` (server.js lines 88-102): the closed-transport guard, the
`identifier = -1` sentinel when no callback is given, the counter increment
and callback registration (before transmission) when one is, and the
transmit.  Returns the successor state and the ordered event list; an
`Except.error` result would be an uncaught JS exception. -/
def sendCommand (H : Type) (st : RconState H) (cmd : String) (callback : Option H) :
    Except String (RconState H × List (SendEvent H)) :=
  if st.wsOpen = false then
    Except.ok (st, [SendEvent.errorLog ("WebSocket not open. Cannot send: " ++ cmd)])
  else
    match callback with
    | none =>
      match wsSend st.wsOpen { identifier := -1, message := cmd, name := "NodeRcon" } with
      | Except.error e => Except.error e
      | Except.ok f =>
        Except.ok (st, [SendEvent.transmit f, SendEvent.infoLog ("Sent command: " ++ cmd)])
    | some cb =>
      let identifier := st.lastIdentifier + 1
      let st' : RconState H :=
        { st with lastIdentifier := identifier, callbacks := (identifier, cb) :: st.callbacks }
      match wsSend st.wsOpen { identifier := identifier, message := cmd, name := "NodeRcon" } with
      | Except.error e => Except.error e
      | Except.ok f =>
        Except.ok (st', [SendEvent.register identifier cb, SendEvent.transmit f,
                         SendEvent.infoLog ("Sent command: " ++ cmd)])

/-- An inbound frame after `JSON.parse`: only `Identifier` is consulted
(optional in the data), `payload` stands for everything else in the parsed
message, which is passed whole to the handler. -/
structure InboundMsg where
  identifier : Option Int
  payload : String
deriving DecidableEq, Repr

/-- `this.callbacks[id]` lookup. -/
def lookupCb (H : Type) (i : Int) (l : List (Int × H)) : Option H :=
  (l.find? fun p => p.1 = i).map Prod.snd

/-- `delete this.callbacks[id]`: remove the key from the object. -/
def deleteCb (H : Type) (i : Int) (l : List (Int × H)) : List (Int × H) :=
  l.filter fun p => p.1 ≠ i

/-- The message handler installed by `connect` (server.js lines 63-80).  Its
input is the outcome of `JSON.parse(data)` inside the try/catch:
`Except.error` is a parse throw, caught, logged and dropped.  A present
identifier greater than 1000 that is a key of the pending map invokes the
stored handler with the full parsed message and deletes the entry; every
other frame is discarded.  The JS truthiness test `message.Identifier &&`
rejects exactly the absent (and zero) identifiers, both subsumed by the
`1000 < i` test.  Returns the successor state and the handler invocation, if
any, with its argument. -/
def onMessage (H : Type) (st : RconState H) (parsed : Except String InboundMsg) :
    Except String (RconState H × Option (H × InboundMsg)) :=
  match parsed with
  | Except.error _ => Except.ok (st, none)
  | Except.ok msg =>
    match msg.identifier with
    | some i =>
      if 1000 < i then
        match lookupCb H i st.callbacks with
        | some cb =>
          Except.ok ({ st with callbacks := deleteCb H i st.callbacks }, some (cb, msg))
        | none => Except.ok (st, none)
      else Except.ok (st, none)
    | none => Except.ok (st, none)

/-- An announcement timer firing against a live channel: the guarded
announcement (server.js lines 179-183) routed through
`sendAnnouncement`/`sendCommand` with no reply callback. -/
def runAnnouncement (H : Type) (st : RconState H) (eventTime fireNow : Int)
    (interval : Nat) (label : String) :
    Except String (RconState H × List (SendEvent H)) :=
  match fireAnnouncement eventTime fireNow interval label with
  | some cmd => sendCommand H st cmd none
  | none => Except.ok (st, [])

/-- The terminal timer firing against a live channel (server.js lines
187-197): the three commands, each through `sendCommand` with no reply
callback (the webhook dispatch has its own try/catch and touches no channel
state). -/
def runTerminal (H : Type) (st : RconState H) :
    Except String (RconState H × List (SendEvent H)) := do
  let (st1, e1) ← sendCommand H st (sayCmd "Restarting now...") none
  let (st2, e2) ← sendCommand H st1 "server.save" none
  let (st3, e3) ← sendCommand H st2 "restart 0" none
  Except.ok (st3, e1 ++ e2 ++ e3)

/-- C1: for every valid zero-padded "HH:MM" string and every instant `now`,
`getNextRestartTime` returns an instant strictly after `now` whose UTC hour
and minute are the parsed fields and whose seconds are zero; when the
today-instant at that wall time is at or before `now`, the result is that
today-instant plus 86 400 seconds; and
`nextOccurrence("00:00", 2024-01-01T00:00:00Z) = 2024-01-02T00:00:00Z`. -/
theorem getNextRestartTime_spec :
    (∀ (s : String) (now h m : Nat),
        parseHHMM s = some (h, m) → h < 24 → m < 60 →
        ∃ r, getNextRestartTime s now = some r ∧
          now < r ∧ getUTCHours r = h ∧ getUTCMinutes r = m ∧ getUTCSeconds r = 0 ∧
          (todayAtUTC now h m ≤ now → r = todayAtUTC now h m + 86400 * 1000)) ∧
    getNextRestartTime "00:00" 1704067200000 = some 1704153600000 := by
  constructor
  · intro s now h m hparse hh hm
    simp only [getNextRestartTime, hparse]
    refine ⟨_, rfl, ?_⟩
    unfold todayAtUTC getUTCHours getUTCMinutes getUTCSeconds
    have h1 : now % 86400000 < 86400000 := Nat.mod_lt _ (by norm_num)
    split_ifs <;> refine ⟨by omega, by omega, by omega, by omega, by omega⟩
  · rfl

/-- Witness for C1 at `s = "07:30"`, `now = 2024-01-01T08:00:00Z`
(1704096000000 ms): the 07:30 today-instant has already passed, so the next
occurrence is 2024-01-02T07:30:00Z. -/
theorem getNextRestartTime_spec_witness :
    parseHHMM "07:30" = some (7, 30) ∧ 7 < 24 ∧ 30 < 60 ∧
    ∃ r, getNextRestartTime "07:30" 1704096000000 = some r ∧
      1704096000000 < r ∧ getUTCHours r = 7 ∧ getUTCMinutes r = 30 ∧
      getUTCSeconds r = 0 ∧
      (todayAtUTC 1704096000000 7 30 ≤ 1704096000000 →
        r = todayAtUTC 1704096000000 7 30 + 86400 * 1000) :=
  ⟨rfl, by decide, by decide,
   getNextRestartTime_spec.1 "07:30" 1704096000000 7 30 rfl (by decide) (by decide)⟩

/-- C4: `formatTime` floors (identity on integer input) and renders exactly
as the specification words it, with the five example values. -/
theorem formatTime_meets_spec :
    (∀ s : Nat, formatTime s = formatTimeSpec s) ∧
    formatTime 5 = "5 seconds" ∧ formatTime 1 = "1 second" ∧
    formatTime 90 = "1 minute and 30 seconds" ∧
    formatTime 120 = "2 minutes" ∧ formatTime 61 = "1 minute and 1 second" := by
  refine ⟨fun s => ?_, rfl, rfl, rfl, rfl, rfl⟩
  simp only [formatTime, formatTimeSpec]
  rw [show (" minute" : String) = " " ++ "minute" from rfl,
      show (" minutes" : String) = " " ++ "minutes" from rfl,
      show (" second" : String) = " " ++ "second" from rfl,
      show (" seconds" : String) = " " ++ "seconds" from rfl]
  split_ifs <;> simp [String.append_assoc]

theorem scheduleRestart_of_stale (now eventTime : Int) (h : eventTime - now ≤ 0) :
    scheduleRestart now eventTime =
      { announceTimers := [], terminalDelay := none, logs := [ArmLog.alreadyPassed] } := by
  simp [scheduleRestart, h]

theorem scheduleRestart_of_future (now eventTime : Int) (h : 0 < eventTime - now) :
    scheduleRestart now eventTime =
      { announceTimers :=
          intervals.filterMap fun (interval : Nat) =>
            if (interval : Int) * 1000 < eventTime - now then
              some (eventTime - now - (interval : Int) * 1000, interval)
            else none,
        terminalDelay := some (eventTime - now),
        logs := [ArmLog.scheduling] } := by
  simp [scheduleRestart, not_le.mpr h]

/-- C5: arming with an event instant at or before `now` emits exactly the one
"already passed" log and schedules nothing: no announcement timers and no
terminal timer. -/
theorem scheduleRestart_stale_drops :
    ∀ now eventTime : Int, eventTime - now ≤ 0 →
      scheduleRestart now eventTime =
        { announceTimers := [], terminalDelay := none,
          logs := [ArmLog.alreadyPassed] } :=
  scheduleRestart_of_stale

/-- Witness for C5 at `now = 100`, `eventTime = 50`. -/
theorem scheduleRestart_stale_drops_witness :
    (50 : Int) - 100 ≤ 0 ∧
    scheduleRestart 100 50 =
      { announceTimers := [], terminalDelay := none,
        logs := [ArmLog.alreadyPassed] } :=
  ⟨by decide, scheduleRestart_stale_drops 100 50 (by decide)⟩

/-- C2: a lead time `L` of the fixed set gets an announcement timer exactly
when the arm-time milliseconds-until-event exceeds `L` seconds, that timer's
delay is `msUntilEvent - L * 1000`, at fire time the announcement
`label ++ " in " ++ formatTime L` goes through the channel exactly when the
remaining time is at least `L - 1` seconds (silently skipped otherwise), and
arming 40 seconds ahead schedules exactly the lead times 30, 10, 5. -/
theorem scheduleRestart_cascade_spec :
    (∀ (now eventTime : Int) (L : Nat), L ∈ intervals →
      ((((eventTime - now - (L : Int) * 1000, L) : Int × Nat) ∈
          (scheduleRestart now eventTime).announceTimers) ↔
        (L : Int) * 1000 < eventTime - now) ∧
      (∀ d : Int, ((d, L) : Int × Nat) ∈ (scheduleRestart now eventTime).announceTimers →
        d = eventTime - now - (L : Int) * 1000)) ∧
    (∀ (eventTime fireNow : Int) (L : Nat) (label : String),
      (fireAnnouncement eventTime fireNow L label =
          some (sayCmd (label ++ " in " ++ formatTime L)) ↔
        ((L : Int) - 1) * 1000 ≤ eventTime - fireNow) ∧
      (¬ ((L : Int) - 1) * 1000 ≤ eventTime - fireNow →
        fireAnnouncement eventTime fireNow L label = none)) ∧
    (scheduleRestart 0 40000).announceTimers.map Prod.snd = [30, 10, 5] := by
  refine ⟨?_, ?_, by decide⟩
  · intro now et L hL
    by_cases hms : et - now ≤ 0
    · rw [scheduleRestart_of_stale _ _ hms]
      constructor
      · simp only [List.not_mem_nil, false_iff]
        intro hlt
        omega
      · intro d hd
        exact absurd hd (List.not_mem_nil _)
    · push_neg at hms
      rw [scheduleRestart_of_future _ _ hms]
      simp only [List.mem_filterMap]
      constructor
      · constructor
        · rintro ⟨i, hi, hfi⟩
          by_cases hc : (i : Int) * 1000 < et - now
          · simp only [hc, if_true, Option.some.injEq, Prod.mk.injEq] at hfi
            obtain ⟨-, hi2⟩ := hfi
            subst hi2
            exact hc
          · simp [hc] at hfi
        · intro hlt
          exact ⟨L, hL, by simp [hlt]⟩
      · intro d hd
        obtain ⟨i, hi, hfi⟩ := hd
        by_cases hc : (i : Int) * 1000 < et - now
        · simp only [hc, if_true, Option.some.injEq, Prod.mk.injEq] at hfi
          obtain ⟨hd1, hi2⟩ := hfi
          subst hi2
          exact hd1.symm
        · simp [hc] at hfi
  · intro et fn L label
    unfold fireAnnouncement
    by_cases hg : ((L : Int) - 1) * 1000 ≤ et - fn
    · simp [hg]
    · simp [hg]

/-- Witness for C2's quantified parts at `L = 30`, `now = 0`,
`eventTime = 40000`, `fireNow = 10000`, label "Daily restart". -/
theorem scheduleRestart_cascade_spec_witness :
    (30 ∈ intervals ∧
      ((((40000 : Int) - 0 - (30 : Int) * 1000, 30) : Int × Nat) ∈
          (scheduleRestart 0 40000).announceTimers ↔
        (30 : Int) * 1000 < (40000 : Int) - 0)) ∧
    (fireAnnouncement 40000 10000 30 "Daily restart" =
        some (sayCmd ("Daily restart" ++ " in " ++ formatTime 30)) ↔
      ((30 : Int) - 1) * 1000 ≤ (40000 : Int) - 10000) :=
  ⟨⟨by decide, (scheduleRestart_cascade_spec.1 0 40000 30 (by decide)).1⟩,
   (scheduleRestart_cascade_spec.2.1 40000 10000 30 "Daily restart").1⟩

/-- C3: for a strictly-future event the terminal timer is armed at exactly
`msUntilEvent`, and when it fires it performs, in order: the webhook embed
(title `serverName - label`, fixed reconnect message) when configured, the
"Restarting now..." announcement, `server.save`, and `restart 0` after a
further 2000 ms. -/
theorem terminal_restart_sequence :
    ∀ (now eventTime : Int) (serverName label : String),
      0 < eventTime - now →
      (scheduleRestart now eventTime).terminalDelay = some (eventTime - now) ∧
      fireTerminal true serverName label =
        [TermEffect.webhook (serverName ++ " - " ++ label) "Reconnect in 5 minutes",
         TermEffect.send (sayCmd "Restarting now..."),
         TermEffect.send "server.save",
         TermEffect.delayedSend 2000 "restart 0"] ∧
      fireTerminal false serverName label =
        [TermEffect.send (sayCmd "Restarting now..."),
         TermEffect.send "server.save",
         TermEffect.delayedSend 2000 "restart 0"] := by
  intro now et sn lbl h
  refine ⟨?_, rfl, rfl⟩
  rw [scheduleRestart_of_future _ _ h]

/-- Witness for C3 at `now = 0`, `eventTime = 40000`, server "Rust", label
"Daily restart". -/
theorem terminal_restart_sequence_witness :
    (0 : Int) < 40000 - 0 ∧
    ((scheduleRestart 0 40000).terminalDelay = some ((40000 : Int) - 0) ∧
      fireTerminal true "Rust" "Daily restart" =
        [TermEffect.webhook ("Rust" ++ " - " ++ "Daily restart") "Reconnect in 5 minutes",
         TermEffect.send (sayCmd "Restarting now..."),
         TermEffect.send "server.save",
         TermEffect.delayedSend 2000 "restart 0"] ∧
      fireTerminal false "Rust" "Daily restart" =
        [TermEffect.send (sayCmd "Restarting now..."),
         TermEffect.send "server.save",
         TermEffect.delayedSend 2000 "restart 0"]) :=
  ⟨by decide, terminal_restart_sequence 0 40000 "Rust" "Daily restart" (by decide)⟩

theorem sendCommand_open_with_cb (H : Type) (st : RconState H) (cmd : String)
    (cb : H) (h : st.wsOpen = true) :
    sendCommand H st cmd (some cb) =
      Except.ok
        ({ st with lastIdentifier := st.lastIdentifier + 1,
                   callbacks := (st.lastIdentifier + 1, cb) :: st.callbacks },
         [SendEvent.register (st.lastIdentifier + 1) cb,
          SendEvent.transmit
            { identifier := st.lastIdentifier + 1, message := cmd, name := "NodeRcon" },
          SendEvent.infoLog ("Sent command: " ++ cmd)]) := by
  simp [sendCommand, wsSend, h]

theorem sendCommand_open_no_cb (H : Type) (st : RconState H) (cmd : String)
    (h : st.wsOpen = true) :
    sendCommand H st cmd none =
      Except.ok
        (st, [SendEvent.transmit { identifier := -1, message := cmd, name := "NodeRcon" },
              SendEvent.infoLog ("Sent command: " ++ cmd)]) := by
  simp [sendCommand, wsSend, h]

theorem sendCommand_closed (H : Type) (st : RconState H) (cmd : String)
    (cb : Option H) (h : st.wsOpen = false) :
    sendCommand H st cmd cb =
      Except.ok (st, [SendEvent.errorLog ("WebSocket not open. Cannot send: " ++ cmd)]) := by
  simp [sendCommand, h]

/-- C6: on an open channel, a send with a reply handler uses the incremented
counter as the frame identifier and registers the handler (the `register`
event precedes the `transmit` event); a send without a handler uses the
sentinel `-1` and changes neither the counter nor the pending map; the
transmitted frame is always `{Identifier, Message = cmd, Name = "NodeRcon"}`;
and two handler sends in sequence get strictly increasing identifiers, both
above 1000 whenever the counter is at or above its seed of 1000. -/
theorem sendCommand_identifier_spec :
    (∀ (H : Type) (st : RconState H) (cmd : String) (cb : H),
      st.wsOpen = true →
      sendCommand H st cmd (some cb) =
        Except.ok
          ({ st with lastIdentifier := st.lastIdentifier + 1,
                     callbacks := (st.lastIdentifier + 1, cb) :: st.callbacks },
           [SendEvent.register (st.lastIdentifier + 1) cb,
            SendEvent.transmit
              { identifier := st.lastIdentifier + 1, message := cmd, name := "NodeRcon" },
            SendEvent.infoLog ("Sent command: " ++ cmd)])) ∧
    (∀ (H : Type) (st : RconState H) (cmd : String),
      st.wsOpen = true →
      sendCommand H st cmd none =
        Except.ok
          (st, [SendEvent.transmit { identifier := -1, message := cmd, name := "NodeRcon" },
                SendEvent.infoLog ("Sent command: " ++ cmd)])) ∧
    (∀ (H : Type) (st : RconState H) (cmd₁ cmd₂ : String) (cb₁ cb₂ : H),
      st.wsOpen = true → 1000 ≤ st.lastIdentifier →
      ∃ st₁ ev₁ st₂ ev₂,
        sendCommand H st cmd₁ (some cb₁) = Except.ok (st₁, ev₁) ∧
        sendCommand H st₁ cmd₂ (some cb₂) = Except.ok (st₂, ev₂) ∧
        SendEvent.transmit
            { identifier := st₁.lastIdentifier, message := cmd₁, name := "NodeRcon" } ∈ ev₁ ∧
        SendEvent.transmit
            { identifier := st₂.lastIdentifier, message := cmd₂, name := "NodeRcon" } ∈ ev₂ ∧
        st₁.lastIdentifier < st₂.lastIdentifier ∧
        1000 < st₁.lastIdentifier ∧ 1000 < st₂.lastIdentifier) := by
  refine ⟨sendCommand_open_with_cb, sendCommand_open_no_cb, ?_⟩
  intro H st cmd₁ cmd₂ cb₁ cb₂ hopen hseed
  refine ⟨_, _, _, _, sendCommand_open_with_cb H st cmd₁ cb₁ hopen,
    sendCommand_open_with_cb H _ cmd₂ cb₂ hopen, ?_, ?_, ?_, ?_, ?_⟩
  · simp
  · simp
  · simp
  · simp only []
    omega
  · simp only []
    omega

/-- Witness for C6 from the freshly constructed state (counter 1000, open
transport) with `Nat` handlers. -/
theorem sendCommand_identifier_spec_witness :
    ((initialState Nat true).wsOpen = true ∧
      sendCommand Nat (initialState Nat true) "status" (some 7) =
        Except.ok
          ({ callbacks := [(1001, 7)], lastIdentifier := 1001, wsOpen := true },
           [SendEvent.register 1001 7,
            SendEvent.transmit { identifier := 1001, message := "status", name := "NodeRcon" },
            SendEvent.infoLog ("Sent command: " ++ "status")])) ∧
    sendCommand Nat (initialState Nat true) "serverinfo" none =
      Except.ok
        (initialState Nat true,
         [SendEvent.transmit { identifier := -1, message := "serverinfo", name := "NodeRcon" },
          SendEvent.infoLog ("Sent command: " ++ "serverinfo")]) :=
  ⟨⟨rfl, by
      have h := sendCommand_identifier_spec.1 Nat (initialState Nat true) "status" 7 rfl
      simpa [initialState] using h⟩,
   sendCommand_identifier_spec.2.1 Nat (initialState Nat true) "serverinfo" rfl⟩

theorem onMessage_hit (H : Type) (st : RconState H) (msg : InboundMsg) (i : Int)
    (cb : H) (h1 : msg.identifier = some i) (h2 : 1000 < i)
    (h3 : lookupCb H i st.callbacks = some cb) :
    onMessage H st (Except.ok msg) =
      Except.ok ({ st with callbacks := deleteCb H i st.callbacks }, some (cb, msg)) := by
  simp [onMessage, h1, h2, h3]

theorem onMessage_miss (H : Type) (st : RconState H)
    (parsed : Except String InboundMsg)
    (h : ∀ (msg : InboundMsg) (i : Int), parsed = Except.ok msg →
      msg.identifier = some i → 1000 < i → lookupCb H i st.callbacks = none) :
    onMessage H st parsed = Except.ok (st, none) := by
  rcases parsed with e | msg
  · rfl
  · rcases hid : msg.identifier with _ | i
    · simp [onMessage, hid]
    · by_cases hi : 1000 < i
      · have := h msg i rfl hid hi
        simp [onMessage, hid, hi, this]
      · simp [onMessage, hid, hi]

theorem lookupCb_deleteCb (H : Type) (i : Int) (l : List (Int × H)) :
    lookupCb H i (deleteCb H i l) = none := by
  unfold lookupCb deleteCb
  simp

/-- C7: an inbound frame that parses with an identifier above 1000 that is a
key of the pending map invokes the stored handler on the full parsed message
and removes the entry; in every other case (parse failure, absent identifier,
identifier at or below 1000, or unknown identifier) no handler is invoked and
the pending map is unchanged. -/
theorem onMessage_dispatch_spec :
    (∀ (H : Type) (st : RconState H) (msg : InboundMsg) (i : Int) (cb : H),
      msg.identifier = some i → 1000 < i → lookupCb H i st.callbacks = some cb →
      onMessage H st (Except.ok msg) =
        Except.ok ({ st with callbacks := deleteCb H i st.callbacks }, some (cb, msg))) ∧
    (∀ (H : Type) (st : RconState H) (parsed : Except String InboundMsg),
      (∀ (msg : InboundMsg) (i : Int), parsed = Except.ok msg →
        msg.identifier = some i → 1000 < i → lookupCb H i st.callbacks = none) →
      onMessage H st parsed = Except.ok (st, none)) :=
  ⟨onMessage_hit, onMessage_miss⟩

/-- Witness for C7: a matching reply (identifier 1001, pending handler 7) is
dispatched and removed; a stray reply (identifier 4242, never issued) is
discarded with the map unchanged. -/
theorem onMessage_dispatch_spec_witness :
    onMessage Nat ⟨[(1001, 7)], 1001, true⟩ (Except.ok ⟨some 1001, "reply"⟩) =
      Except.ok (⟨[], 1001, true⟩, some (7, ⟨some 1001, "reply"⟩)) ∧
    onMessage Nat ⟨[(1001, 7)], 1001, true⟩ (Except.ok ⟨some 4242, "stray"⟩) =
      Except.ok (⟨[(1001, 7)], 1001, true⟩, none) := by
  constructor
  · exact onMessage_dispatch_spec.1 Nat ⟨[(1001, 7)], 1001, true⟩
      ⟨some 1001, "reply"⟩ 1001 7 rfl (by decide) rfl
  · apply onMessage_dispatch_spec.2 Nat ⟨[(1001, 7)], 1001, true⟩
    intro msg i heq hid hi
    cases heq
    rw [show i = 4242 from by simpa using hid.symm]
    rfl

/-- C8: sending while the transport is not open returns normally (no
exception), transmits nothing, logs one error, and leaves the pending map and
the identifier counter untouched. -/
theorem sendCommand_closed_noop :
    ∀ (H : Type) (st : RconState H) (cmd : String) (cb : Option H),
      st.wsOpen = false →
      sendCommand H st cmd cb =
        Except.ok (st, [SendEvent.errorLog ("WebSocket not open. Cannot send: " ++ cmd)]) :=
  sendCommand_closed

/-- Witness for C8: a send with a handler on a closed fresh channel. -/
theorem sendCommand_closed_noop_witness :
    (initialState Nat false).wsOpen = false ∧
    sendCommand Nat (initialState Nat false) "status" (some 3) =
      Except.ok (initialState Nat false,
        [SendEvent.errorLog ("WebSocket not open. Cannot send: " ++ "status")]) :=
  ⟨rfl, sendCommand_closed_noop Nat (initialState Nat false) "status" (some 3) rfl⟩

/-- C10: reply delivery is at-most-once per identifier: once a frame with
identifier `i` has invoked its pending handler (removing the entry), any
later frame with the same identifier invokes nothing and leaves the state
unchanged. -/
theorem reply_at_most_once :
    ∀ (H : Type) (st : RconState H) (msg msg₂ : InboundMsg) (i : Int) (cb : H),
      msg.identifier = some i → 1000 < i → lookupCb H i st.callbacks = some cb →
      msg₂.identifier = some i →
      ∃ st₁ : RconState H,
        onMessage H st (Except.ok msg) = Except.ok (st₁, some (cb, msg)) ∧
        onMessage H st₁ (Except.ok msg₂) = Except.ok (st₁, none) := by
  intro H st msg msg₂ i cb h1 h2 h3 h4
  refine ⟨_, onMessage_hit H st msg i cb h1 h2 h3, ?_⟩
  apply onMessage_miss
  intro m j heq hid hj
  cases heq
  rw [h4] at hid
  obtain rfl : i = j := Option.some.inj hid
  exact lookupCb_deleteCb H i st.callbacks

/-- Witness for C10: after identifier 1001's handler fires, a replayed frame
with identifier 1001 is discarded. -/
theorem reply_at_most_once_witness :
    (⟨some 1001, "reply"⟩ : InboundMsg).identifier = some 1001 ∧ (1000 : Int) < 1001 ∧
    lookupCb Nat 1001 [(1001, 7)] = some 7 ∧
    (⟨some 1001, "replay"⟩ : InboundMsg).identifier = some 1001 ∧
    ∃ st₁ : RconState Nat,
      onMessage Nat ⟨[(1001, 7)], 1001, true⟩ (Except.ok ⟨some 1001, "reply"⟩) =
        Except.ok (st₁, some (7, ⟨some 1001, "reply"⟩)) ∧
      onMessage Nat st₁ (Except.ok ⟨some 1001, "replay"⟩) = Except.ok (st₁, none) :=
  ⟨rfl, by decide, rfl, rfl,
   reply_at_most_once Nat ⟨[(1001, 7)], 1001, true⟩ ⟨some 1001, "reply"⟩
     ⟨some 1001, "replay"⟩ 1001 7 rfl (by decide) rfl rfl⟩

theorem sendCommand_isOk (H : Type) (st : RconState H) (cmd : String)
    (cb : Option H) : ∃ r, sendCommand H st cmd cb = Except.ok r := by
  cases hws : st.wsOpen
  · exact ⟨_, sendCommand_closed H st cmd cb hws⟩
  · cases cb with
    | none => exact ⟨_, sendCommand_open_no_cb H st cmd hws⟩
    | some c => exact ⟨_, sendCommand_open_with_cb H st cmd c hws⟩

theorem onMessage_isOk (H : Type) (st : RconState H)
    (parsed : Except String InboundMsg) :
    ∃ r, onMessage H st parsed = Except.ok r := by
  rcases parsed with e | msg
  · exact ⟨_, rfl⟩
  · rcases hid : msg.identifier with _ | i
    · exact ⟨(st, none), by simp [onMessage, hid]⟩
    · by_cases hi : 1000 < i
      · rcases hcb : lookupCb H i st.callbacks with _ | cb
        · exact ⟨(st, none), by simp [onMessage, hid, hi, hcb]⟩
        · exact ⟨_, onMessage_hit H st msg i cb hid hi hcb⟩
      · exact ⟨(st, none), by simp [onMessage, hid, hi]⟩

/-- C9: no core operation surfaces an error to its caller: any send on any
channel state, any inbound frame (including unparsable ones), any
announcement-timer fire and any terminal-timer fire returns normally, and
every arm call completes with exactly one of its two normal outcomes. -/
theorem core_operations_no_crash :
    (∀ (H : Type) (st : RconState H) (cmd : String) (cb : Option H),
      ∃ r, sendCommand H st cmd cb = Except.ok r) ∧
    (∀ (H : Type) (st : RconState H) (parsed : Except String InboundMsg),
      ∃ r, onMessage H st parsed = Except.ok r) ∧
    (∀ (H : Type) (st : RconState H) (eventTime fireNow : Int) (interval : Nat)
        (label : String),
      ∃ r, runAnnouncement H st eventTime fireNow interval label = Except.ok r) ∧
    (∀ (H : Type) (st : RconState H), ∃ r, runTerminal H st = Except.ok r) ∧
    (∀ now eventTime : Int,
      (scheduleRestart now eventTime).logs = [ArmLog.alreadyPassed] ∨
      (scheduleRestart now eventTime).logs = [ArmLog.scheduling]) := by
  refine ⟨sendCommand_isOk, onMessage_isOk, ?_, ?_, ?_⟩
  · intro H st eventTime fireNow interval label
    unfold runAnnouncement
    rcases hf : fireAnnouncement eventTime fireNow interval label with _ | cmd
    · exact ⟨_, rfl⟩
    · exact sendCommand_isOk H st cmd none
  · intro H st
    obtain ⟨⟨st₁, e₁⟩, h₁⟩ := sendCommand_isOk H st (sayCmd "Restarting now...") none
    obtain ⟨⟨st₂, e₂⟩, h₂⟩ := sendCommand_isOk H st₁ "server.save" none
    obtain ⟨⟨st₃, e₃⟩, h₃⟩ := sendCommand_isOk H st₂ "restart 0" none
    refine ⟨(st₃, e₁ ++ e₂ ++ e₃), ?_⟩
    simp [runTerminal, h₁, h₂, h₃, Bind.bind, Except.bind]
  · intro now eventTime
    by_cases h : eventTime - now ≤ 0
    · rw [scheduleRestart_of_stale now eventTime h]
      exact Or.inl rfl
    · rw [scheduleRestart_of_future now eventTime (by omega)]
      exact Or.inr rfl
